import Mathlib

/-
Verification of the chuck-norris-facts-api HTTP service (src/app/main.py)
against its natural-language specification.

The HTTP handlers are embedded from src/app/main.py.  The data-access
layer (app/db.py) is not part of the sources available here; it is
modelled from the specification text (section 4.1, "Data Access Layer"),
each such definition carrying a doc comment that starts with
"Modelled from the spec:".
-/

/-- Outcome of a data-access call, as seen by a handler: a success value,
the typed not-found signal (`ObjectNotFoundError` carrying a message, which
`str(e)` renders), or any other exception (`Exception` carrying a message). -/
inductive DbOutcome (α : Type) where
  | ok : α → DbOutcome α
  | notFound : String → DbOutcome α
  | unexpected : String → DbOutcome α
deriving DecidableEq, Repr

/-- The response model `models.ChuckNorrisFactDb`: `{"id": <int>, "fact": <string>}`. -/
structure ChuckNorrisFactDb where
  id : Int
  fact : String
deriving DecidableEq, Repr

/-- The observable result of one handler invocation: a JSON body with its
status code, an `HTTPException` (status code and detail string), or an
exception escaping the handler uncaught (the `TypeError` of
`",".join(map(str, None))` is the only such path). -/
inductive Response where
  | ok200 : ChuckNorrisFactDb → Response
  | okList : List ChuckNorrisFactDb → Response
  | created201 : ChuckNorrisFactDb → Response
  | noContent204 : Response
  | error : Nat → String → Response
  | typeError : Response
deriving DecidableEq, Repr

/-- The HTTP status code of a response; `none` when the handler escapes with
an uncaught exception instead of producing a response. -/
def Response.status : Response → Option Nat
  | .ok200 _ => some 200
  | .okList _ => some 200
  | .created201 _ => some 201
  | .noContent204 => some 204
  | .error c _ => some c
  | .typeError => none

/-- Python truthiness of a string (`if fact:`): empty string is falsy. -/
def pyTruthyStr (s : String) : Bool := !s.isEmpty

/-- Python truthiness of a list (`if facts:`): empty list is falsy. -/
def pyTruthyList {α : Type} (l : List α) : Bool := !l.isEmpty

/-- The persistent store: rows `(id, text)` plus the next id the
auto-increment assigns. -/
structure Store where
  rows : List (Int × String)
  nextId : Int
deriving DecidableEq, Repr

/-- Whether a row with the given id exists in the store. -/
def Store.hasId (s : Store) (fact_id : Int) : Bool :=
  s.rows.any (fun r => r.1 == fact_id)

namespace db

/-- Modelled from the spec: `get_one(id) -> text` fails with `NotFound`
when no row matches `id` (app/db.py is not in the available sources). -/
def get_fact (s : Store) (fact_id : Int) : DbOutcome String :=
  match s.rows.find? (fun r => r.1 == fact_id) with
  | some r => .ok r.2
  | none => .notFound ("No fact with id " ++ toString fact_id)

/-- Modelled from the spec: `get_many(ids) -> list of (id, text)`; when `ids`
is omitted it returns all rows, when provided only the matching rows, and it
fails with `NotFound` if the requested filtered set yields zero rows
(app/db.py is not in the available sources). -/
def get_facts (s : Store) (ids : Option (List Int)) : DbOutcome (List (Int × String)) :=
  match ids with
  | none => .ok s.rows
  | some l =>
      let matched := s.rows.filter (fun r => l.contains r.1)
      if matched.isEmpty then
        .notFound ("No facts with ids " ++ String.intercalate "," (l.map toString))
      else
        .ok matched

/-- Modelled from the spec: `insert(text) -> (id, text)` always succeeds
unless the store rejects the write, and returns the newly assigned id
(app/db.py is not in the available sources).  The id slot is an `Option`
because the handler guards against an absent id (`if id:`). -/
def insert_fact (s : Store) (fact : String) : DbOutcome (Option Int × String) × Store :=
  (.ok (some s.nextId, fact), ⟨s.rows ++ [(s.nextId, fact)], s.nextId + 1⟩)

/-- Modelled from the spec: `update(id, text)` fails with `NotFound` if `id`
does not exist, otherwise replaces the stored text
(app/db.py is not in the available sources). -/
def update_fact (s : Store) (fact_id : Int) (fact : String) : DbOutcome Unit × Store :=
  if s.rows.any (fun r => r.1 == fact_id) then
    (.ok (), ⟨s.rows.map (fun r => if r.1 == fact_id then (fact_id, fact) else r), s.nextId⟩)
  else
    (.notFound ("No fact with id " ++ toString fact_id), s)

/-- Modelled from the spec: `delete(id)` fails with `NotFound` if `id` does
not exist, otherwise removes the row (app/db.py is not in the available
sources). -/
def delete_fact (s : Store) (fact_id : Int) : DbOutcome Unit × Store :=
  if s.rows.any (fun r => r.1 == fact_id) then
    (.ok (), ⟨s.rows.filter (fun r => !(r.1 == fact_id)), s.nextId⟩)
  else
    (.notFound ("No fact with id " ++ toString fact_id), s)

end db

namespace main

/-- Handler `get_fact` (src/app/main.py lines 26-47): maps the outcome of
`db.get_fact` to a response.  `ObjectNotFoundError` becomes 404 with
`str(e)`, any other exception becomes 500, and a falsy (empty) text on
success also becomes 404. -/
def get_fact (fact_id : Int) (r : DbOutcome String) : Response :=
  match r with
  | .notFound e => .error 404 e
  | .unexpected e =>
      .error 500 ("Error while retrieving fact with id " ++ toString fact_id ++ ": " ++ e)
  | .ok fact =>
      if pyTruthyStr fact then
        .ok200 ⟨fact_id, fact⟩
      else
        .error 404 ("Fact with id " ++ toString fact_id ++ " not found.")

/-- Handler `get_facts` (src/app/main.py lines 50-65): maps the outcome of
`db.get_facts` to a response.  On a falsy (empty) success value the
not-found branch formats `",".join(map(str, ids))`, which raises an uncaught
`TypeError` when `ids` is `None`. -/
def get_facts (ids : Option (List Int)) (r : DbOutcome (List (Int × String))) : Response :=
  match r with
  | .notFound e => .error 404 e
  | .unexpected e => .error 500 e
  | .ok facts =>
      if pyTruthyList facts then
        .okList (facts.map (fun p => ⟨p.1, p.2⟩))
      else
        match ids with
        | none => .typeError
        | some l =>
            .error 404 ("Facts with ids " ++ String.intercalate "," (l.map toString) ++ " not found")

/-- Handler `create_item` (src/app/main.py lines 68-82): maps the outcome of
`db.insert_fact` to a response.  Its only except-clause catches every
exception (including `ObjectNotFoundError`) as 500; a falsy id (`None` or
`0`) on success becomes 403. -/
def create_item (r : DbOutcome (Option Int × String)) : Response :=
  match r with
  | .notFound e => .error 500 e
  | .unexpected e => .error 500 e
  | .ok (some i, fact) =>
      if i != 0 then .created201 ⟨i, fact⟩ else .error 403 "Cannot insert fact"
  | .ok (none, _) => .error 403 "Cannot insert fact"

/-- Handler `put_fact` (src/app/main.py lines 84-98): maps the outcome of
`db.update_fact` to a response; success yields 204 No Content. -/
def put_fact (fact_id : Int) (r : DbOutcome Unit) : Response :=
  match r with
  | .ok _ => .noContent204
  | .notFound e => .error 404 e
  | .unexpected e =>
      .error 500 ("Error while retrieving fact with id " ++ toString fact_id ++ ": " ++ e)

/-- Handler `delete_fact` (src/app/main.py lines 100-114): maps the outcome
of `db.delete_fact` to a response; `ObjectNotFoundError` becomes 403 here,
unlike every other handler. -/
def delete_fact (fact_id : Int) (r : DbOutcome Unit) : Response :=
  match r with
  | .ok _ => .noContent204
  | .notFound e => .error 403 e
  | .unexpected e =>
      .error 500 ("Error while retrieving fact with id " ++ toString fact_id ++ ": " ++ e)

end main

/-- End-to-end behaviour of `GET /fact/{fact_id}` against a store. -/
def getFactRoute (s : Store) (fact_id : Int) : Response :=
  main.get_fact fact_id (db.get_fact s fact_id)

/-- End-to-end behaviour of `GET /facts/?ids=...` against a store. -/
def getFactsRoute (s : Store) (ids : Option (List Int)) : Response :=
  main.get_facts ids (db.get_facts s ids)

/-- End-to-end behaviour of `POST /facts/` against a store: the response and
the store left behind. -/
def postFactsRoute (s : Store) (fact : String) : Response × Store :=
  let r := db.insert_fact s fact
  (main.create_item r.1, r.2)

/-- End-to-end behaviour of `PUT /fact/{fact_id}` against a store: the
response and the store left behind. -/
def putFactRoute (s : Store) (fact_id : Int) (fact : String) : Response × Store :=
  let r := db.update_fact s fact_id fact
  (main.put_fact fact_id r.1, r.2)

/-- End-to-end behaviour of `DELETE /fact/{fact_id}` against a store: the
response and the store left behind. -/
def deleteFactRoute (s : Store) (fact_id : Int) : Response × Store :=
  let r := db.delete_fact s fact_id
  (main.delete_fact fact_id r.1, r.2)

/-! ## Helper lemmas about list lookup -/

/-- If no element of `l` satisfies `p` then `find?` returns `none`. -/
theorem find?_eq_none_of_any_eq_false {α : Type} (p : α → Bool) (l : List α)
    (h : l.any p = false) : l.find? p = none := by
  induction l with
  | nil => rfl
  | cons a t ih =>
      simp only [List.any_cons, Bool.or_eq_false_iff] at h
      simp [List.find?_cons, h.1, ih h.2]

/-- Removing every row matching an id makes a subsequent lookup of that id fail. -/
theorem find?_filter_not_eq_none (l : List (Int × String)) (fact_id : Int) :
    (l.filter (fun r => !(r.1 == fact_id))).find? (fun r => r.1 == fact_id) = none := by
  induction l with
  | nil => rfl
  | cons a t ih =>
      cases hp : (a.1 == fact_id) with
      | true => simp [List.filter_cons, hp, ih]
      | false => simp [List.filter_cons, hp, List.find?_cons, ih]

/-- If `l` has a row with the given id, looking that id up after overwriting
every matching row yields the overwritten row. -/
theorem find?_map_overwrite (l : List (Int × String)) (fact_id : Int) (fact : String)
    (h : l.any (fun r => r.1 == fact_id) = true) :
    (l.map (fun r => if r.1 = fact_id then (fact_id, fact) else r)).find?
      (fun r => r.1 == fact_id) = some (fact_id, fact) := by
  induction l with
  | nil => cases h
  | cons a t ih =>
      by_cases he : a.1 = fact_id
      · rw [List.map_cons, if_pos he]
        exact List.find?_cons_of_pos _ (by simp)
      · have hp : (a.1 == fact_id) = false := by simp [he]
        have h2 : t.any (fun r => r.1 == fact_id) = true := by
          simpa [List.any_cons, hp] using h
        rw [List.map_cons, if_neg he,
          List.find?_cons_of_neg _ (by simp [hp])]
        exact ih h2

/-- A lookup that fails on `l1` continues into `l2` on the concatenation. -/
theorem find?_append_of_none {α : Type} (p : α → Bool) (l1 l2 : List α)
    (h : l1.find? p = none) : (l1 ++ l2).find? p = l2.find? p := by
  induction l1 with
  | nil => rfl
  | cons a t ih =>
      cases hp : p a with
      | true => simp [List.find?_cons, hp] at h
      | false =>
          simp only [List.find?_cons, hp, cond_false] at h
          simp [List.find?_cons, hp, ih h]

/-! ## Claims -/

/-- C1: for every id not present in the store, `DELETE /fact/{id}` returns
HTTP 403 (not 404): the handler maps the data layer's `NotFound` signal on
delete to 403, unlike every other endpoint. -/
theorem claim_C1 (s : Store) (fact_id : Int) (e : String)
    (h : s.hasId fact_id = false) :
    (deleteFactRoute s fact_id).1 =
      Response.error 403 ("No fact with id " ++ toString fact_id) ∧
    main.delete_fact fact_id (DbOutcome.notFound e) = Response.error 403 e := by
  have hany : s.rows.any (fun r => r.1 == fact_id) = false := h
  exact ⟨by simp [deleteFactRoute, db.delete_fact, hany, main.delete_fact], rfl⟩

theorem claim_C1_witness :
    Store.hasId ⟨[(1, "a")], 2⟩ 2 = false ∧
    ((deleteFactRoute ⟨[(1, "a")], 2⟩ 2).1 =
       Response.error 403 ("No fact with id " ++ toString (2 : Int)) ∧
     main.delete_fact 2 (DbOutcome.notFound "boom") = Response.error 403 "boom") :=
  ⟨by decide, claim_C1 ⟨[(1, "a")], 2⟩ 2 "boom" (by decide)⟩

/-- C2: for every id not present in the store, `GET /fact/{id}` returns
HTTP 404: the data layer's get-one operation signals `NotFound` for that id
and the handler turns exactly that signal into the 404 response. -/
theorem claim_C2 (s : Store) (fact_id : Int) (h : s.hasId fact_id = false) :
    db.get_fact s fact_id =
      DbOutcome.notFound ("No fact with id " ++ toString fact_id) ∧
    getFactRoute s fact_id =
      Response.error 404 ("No fact with id " ++ toString fact_id) := by
  have hf : s.rows.find? (fun r => r.1 == fact_id) = none :=
    find?_eq_none_of_any_eq_false _ _ h
  constructor
  · simp [db.get_fact, hf]
  · simp [getFactRoute, db.get_fact, hf, main.get_fact]

theorem claim_C2_witness :
    Store.hasId ⟨[(1, "a")], 2⟩ 7 = false ∧
    (db.get_fact ⟨[(1, "a")], 2⟩ 7 =
       DbOutcome.notFound ("No fact with id " ++ toString (7 : Int)) ∧
     getFactRoute ⟨[(1, "a")], 2⟩ 7 =
       Response.error 404 ("No fact with id " ++ toString (7 : Int))) :=
  ⟨by decide, claim_C2 ⟨[(1, "a")], 2⟩ 7 (by decide)⟩

/-- C3 counterexample: with the empty text, POST `/facts/` succeeds (201,
id 1 on an empty store) but the follow-up GET of that id answers 404, not a
200 carrying the text: the claim fails for `text = ""`. -/
theorem claim_C3_counterexample :
    (postFactsRoute ⟨[], 1⟩ "").1 = Response.created201 ⟨1, ""⟩ ∧
    getFactRoute (postFactsRoute ⟨[], 1⟩ "").2 1 =
      Response.error 404 "Fact with id 1 not found." ∧
    Response.status (getFactRoute (postFactsRoute ⟨[], 1⟩ "").2 1) ≠ some 200 := by
  refine ⟨rfl, ?_, ?_⟩ <;> decide

/-- C3 (amended): for every NON-EMPTY text, a successful POST `/facts/`
with that text followed by GET `/fact/{id}` on the id returned by the POST
yields a 200 response whose Fact carries that exact text (the handler's
truthiness check turns an empty stored text into a 404, see C10). -/
theorem claim_C3 (s : Store) (fact : String) (h0 : s.nextId ≠ 0)
    (h1 : s.hasId s.nextId = false) (h2 : fact ≠ "") :
    (postFactsRoute s fact).1 = Response.created201 ⟨s.nextId, fact⟩ ∧
    getFactRoute (postFactsRoute s fact).2 s.nextId =
      Response.ok200 ⟨s.nextId, fact⟩ := by
  have hf : s.rows.find? (fun r => r.1 == s.nextId) = none :=
    find?_eq_none_of_any_eq_false _ _ h1
  constructor
  · simp [postFactsRoute, db.insert_fact, main.create_item, bne, h0]
  · have happ : (s.rows ++ [(s.nextId, fact)]).find? (fun r => r.1 == s.nextId) =
        some (s.nextId, fact) := by
      rw [find?_append_of_none _ _ _ hf]
      exact List.find?_cons_of_pos _ (by simp)
    simp [getFactRoute, postFactsRoute, db.insert_fact, db.get_fact, happ,
      main.get_fact, pyTruthyStr, String.isEmpty_iff, h2]

theorem claim_C3_witness :
    ((1 : Int) ≠ 0 ∧ Store.hasId ⟨[], 1⟩ 1 = false ∧ "a" ≠ "") ∧
    ((postFactsRoute ⟨[], 1⟩ "a").1 = Response.created201 ⟨1, "a"⟩ ∧
     getFactRoute (postFactsRoute ⟨[], 1⟩ "a").2 1 = Response.ok200 ⟨1, "a"⟩) :=
  ⟨⟨by decide, by decide, by decide⟩,
   claim_C3 ⟨[], 1⟩ "a" (by decide) (by decide) (by decide)⟩

/-- C4 counterexample: GET `/facts/` with `ids` omitted on an EMPTY store
does not list the (zero) records of the store: the handler escapes with the
uncaught `TypeError` of `",".join(map(str, None))` instead of responding. -/
theorem claim_C4_counterexample :
    getFactsRoute ⟨[], 1⟩ none = Response.typeError ∧
    getFactsRoute ⟨[], 1⟩ none ≠ Response.okList [] := by
  refine ⟨rfl, ?_⟩ ; decide

/-- C4 (amended): for every call to GET `/facts/`: when the ids query
parameter is omitted AND the store is non-empty, the response lists every
record in the store; when ids are provided and at least one record matches,
the response lists exactly the records whose id is in the given list; a
filtered request matching zero records returns HTTP 404.  (On an empty
store with ids omitted the handler instead fails with an uncaught
TypeError, see C9.) -/
theorem claim_C4 (s : Store) (l1 l2 : List Int)
    (h0 : s.rows ≠ [])
    (h1 : s.rows.filter (fun r => l1.contains r.1) ≠ [])
    (h2 : s.rows.filter (fun r => l2.contains r.1) = []) :
    getFactsRoute s none =
      Response.okList (s.rows.map (fun p => ⟨p.1, p.2⟩)) ∧
    getFactsRoute s (some l1) =
      Response.okList ((s.rows.filter (fun r => l1.contains r.1)).map
        (fun p => ⟨p.1, p.2⟩)) ∧
    Response.status (getFactsRoute s (some l2)) = some 404 := by
  refine ⟨?_, ?_, ?_⟩
  · simp [getFactsRoute, db.get_facts, main.get_facts, pyTruthyList,
      List.isEmpty_iff, h0]
  · have hne : (s.rows.filter (fun r => l1.contains r.1)).isEmpty = false := by
      rw [Bool.eq_false_iff]
      intro hh
      exact h1 (List.isEmpty_iff.mp hh)
    have hdb1 : db.get_facts s (some l1) =
        DbOutcome.ok (s.rows.filter (fun r => l1.contains r.1)) := by
      simp only [db.get_facts, hne, Bool.false_eq_true, if_false]
    rw [getFactsRoute, hdb1]
    simp only [main.get_facts, pyTruthyList, hne, Bool.not_false, if_true]
  · have hemp : (s.rows.filter (fun r => l2.contains r.1)).isEmpty = true := by
      rw [List.isEmpty_iff]
      exact h2
    have hdb2 : db.get_facts s (some l2) =
        DbOutcome.notFound
          ("No facts with ids " ++ String.intercalate "," (l2.map toString)) := by
      simp only [db.get_facts, hemp, if_true]
    rw [getFactsRoute, hdb2]
    rfl

theorem claim_C4_witness :
    ((⟨[(1, "a"), (2, "b")], 3⟩ : Store).rows ≠ [] ∧
     (⟨[(1, "a"), (2, "b")], 3⟩ : Store).rows.filter
       (fun r => [1, 2].contains r.1) ≠ [] ∧
     (⟨[(1, "a"), (2, "b")], 3⟩ : Store).rows.filter
       (fun r => [5].contains r.1) = []) ∧
    (getFactsRoute ⟨[(1, "a"), (2, "b")], 3⟩ none =
       Response.okList ((⟨[(1, "a"), (2, "b")], 3⟩ : Store).rows.map
         (fun p => ⟨p.1, p.2⟩)) ∧
     getFactsRoute ⟨[(1, "a"), (2, "b")], 3⟩ (some [1, 2]) =
       Response.okList (((⟨[(1, "a"), (2, "b")], 3⟩ : Store).rows.filter
         (fun r => [1, 2].contains r.1)).map (fun p => ⟨p.1, p.2⟩)) ∧
     Response.status (getFactsRoute ⟨[(1, "a"), (2, "b")], 3⟩ (some [5])) =
       some 404) :=
  ⟨⟨by decide, by decide, by decide⟩,
   claim_C4 ⟨[(1, "a"), (2, "b")], 3⟩ [1, 2] [5]
     (by decide) (by decide) (by decide)⟩

/-- C5: for every failure that is not the typed `NotFound` signal, every
endpoint handler returns HTTP 500 and the response detail contains the
textual description of the underlying error, unsanitized (for
`get_facts` and `create_item` the detail is exactly `str(e)`; for the
others it is a fixed prefix followed by `str(e)`). -/
theorem claim_C5 (fact_id : Int) (ids : Option (List Int)) (msg : String) :
    (∃ p, main.get_fact fact_id (DbOutcome.unexpected msg) =
       Response.error 500 (p ++ msg)) ∧
    main.get_facts ids (DbOutcome.unexpected msg) = Response.error 500 msg ∧
    main.create_item (DbOutcome.unexpected msg) = Response.error 500 msg ∧
    (∃ p, main.put_fact fact_id (DbOutcome.unexpected msg) =
       Response.error 500 (p ++ msg)) ∧
    (∃ p, main.delete_fact fact_id (DbOutcome.unexpected msg) =
       Response.error 500 (p ++ msg)) :=
  ⟨⟨"Error while retrieving fact with id " ++ toString fact_id ++ ": ", rfl⟩,
   rfl, rfl,
   ⟨"Error while retrieving fact with id " ++ toString fact_id ++ ": ", rfl⟩,
   ⟨"Error while retrieving fact with id " ++ toString fact_id ++ ": ", rfl⟩⟩

/-- C6: for every id present in the store, `DELETE /fact/{id}` returns
HTTP 204, and a subsequent `GET /fact/{id}` on the same id returns
HTTP 404. -/
theorem claim_C6 (s : Store) (fact_id : Int) (h : s.hasId fact_id = true) :
    (deleteFactRoute s fact_id).1 = Response.noContent204 ∧
    getFactRoute (deleteFactRoute s fact_id).2 fact_id =
      Response.error 404 ("No fact with id " ++ toString fact_id) := by
  have hany : s.rows.any (fun r => r.1 == fact_id) = true := h
  constructor
  · simp [deleteFactRoute, db.delete_fact, hany, main.delete_fact]
  · have hfind := find?_filter_not_eq_none s.rows fact_id
    simp [deleteFactRoute, db.delete_fact, hany, getFactRoute, db.get_fact,
      hfind, main.get_fact]

theorem claim_C6_witness :
    Store.hasId ⟨[(1, "a"), (2, "b")], 3⟩ 1 = true ∧
    ((deleteFactRoute ⟨[(1, "a"), (2, "b")], 3⟩ 1).1 = Response.noContent204 ∧
     getFactRoute (deleteFactRoute ⟨[(1, "a"), (2, "b")], 3⟩ 1).2 1 =
       Response.error 404 ("No fact with id " ++ toString (1 : Int))) :=
  ⟨by decide, claim_C6 ⟨[(1, "a"), (2, "b")], 3⟩ 1 (by decide)⟩

/-- C7 counterexample: updating an existing record to the EMPTY text does
return 204 and does replace the stored text, yet the follow-up GET answers
404 and not the new text: the claim fails for `text = ""`. -/
theorem claim_C7_counterexample :
    (putFactRoute ⟨[(1, "a")], 2⟩ 1 "").1 = Response.noContent204 ∧
    (putFactRoute ⟨[(1, "a")], 2⟩ 1 "").2.rows = [(1, "")] ∧
    getFactRoute (putFactRoute ⟨[(1, "a")], 2⟩ 1 "").2 1 =
      Response.error 404 "Fact with id 1 not found." := by
  refine ⟨rfl, rfl, ?_⟩ ; decide

/-- C7 (amended): for every id present in the store and every NON-EMPTY
text, `PUT /fact/{id}` with that text returns HTTP 204 and replaces the
stored text of that record, so a subsequent `GET /fact/{id}` returns the
new text; PUT on an absent id returns HTTP 404.  (Replacement by the empty
text still answers 204 and stores it, but the subsequent GET then answers
404, see C10.) -/
theorem claim_C7 (s s2 : Store) (fact_id id2 : Int) (fact t2 : String)
    (h : s.hasId fact_id = true) (hf : fact ≠ "") (h2 : s2.hasId id2 = false) :
    (putFactRoute s fact_id fact).1 = Response.noContent204 ∧
    getFactRoute (putFactRoute s fact_id fact).2 fact_id =
      Response.ok200 ⟨fact_id, fact⟩ ∧
    Response.status (putFactRoute s2 id2 t2).1 = some 404 := by
  have hany : s.rows.any (fun r => r.1 == fact_id) = true := h
  have hany2 : s2.rows.any (fun r => r.1 == id2) = false := h2
  refine ⟨?_, ?_, ?_⟩
  · simp [putFactRoute, db.update_fact, hany, main.put_fact]
  · have hfind := find?_map_overwrite s.rows fact_id fact hany
    simp [putFactRoute, db.update_fact, hany, getFactRoute, db.get_fact,
      hfind, main.get_fact, pyTruthyStr, String.isEmpty_iff, hf,
      -List.find?_map]
  · simp [putFactRoute, db.update_fact, hany2, main.put_fact, Response.status]

theorem claim_C7_witness :
    (Store.hasId ⟨[(1, "a")], 2⟩ 1 = true ∧ "new" ≠ "" ∧
     Store.hasId ⟨[(1, "a")], 2⟩ 9 = false) ∧
    ((putFactRoute ⟨[(1, "a")], 2⟩ 1 "new").1 = Response.noContent204 ∧
     getFactRoute (putFactRoute ⟨[(1, "a")], 2⟩ 1 "new").2 1 =
       Response.ok200 ⟨1, "new"⟩ ∧
     Response.status (putFactRoute ⟨[(1, "a")], 2⟩ 9 "t").1 = some 404) :=
  ⟨⟨by decide, by decide, by decide⟩,
   claim_C7 ⟨[(1, "a")], 2⟩ ⟨[(1, "a")], 2⟩ 1 9 "new" "t"
     (by decide) (by decide) (by decide)⟩

/-- C8: for every text, POST `/facts/` returns HTTP 201 with a body carrying
the newly assigned id and the submitted text when the insert returns an id
(the store's auto-increment id, non-zero); when the insert returns no id,
the endpoint returns HTTP 403 with detail "Cannot insert fact". -/
theorem claim_C8 (s : Store) (fact : String) (h : s.nextId ≠ 0) :
    (postFactsRoute s fact).1 = Response.created201 ⟨s.nextId, fact⟩ ∧
    main.create_item (DbOutcome.ok (none, fact)) =
      Response.error 403 "Cannot insert fact" := by
  constructor
  · simp [postFactsRoute, db.insert_fact, main.create_item, bne, h]
  · rfl

theorem claim_C8_witness :
    (1 : Int) ≠ 0 ∧
    ((postFactsRoute ⟨[], 1⟩ "hello").1 = Response.created201 ⟨1, "hello"⟩ ∧
     main.create_item (DbOutcome.ok (none, "hello")) =
       Response.error 403 "Cannot insert fact") :=
  ⟨by decide, claim_C8 ⟨[], 1⟩ "hello" (by decide)⟩

/-- C9: for GET `/facts/` with the ids query parameter omitted, when the
data layer returns the empty list (empty store) the handler's not-found
branch evaluates `",".join(map(str, ids))` with `ids = None` and escapes
with an uncaught `TypeError` instead of producing the 404 response. -/
theorem claim_C9 (s : Store) (h : s.rows = []) :
    getFactsRoute s none = Response.typeError ∧
    main.get_facts none (DbOutcome.ok ([] : List (Int × String))) =
      Response.typeError ∧
    ∀ d, getFactsRoute s none ≠ Response.error 404 d := by
  have h1 : getFactsRoute s none = Response.typeError := by
    simp [getFactsRoute, db.get_facts, main.get_facts, h, pyTruthyList]
  refine ⟨h1, rfl, ?_⟩
  intro d hd
  rw [h1] at hd
  cases hd

theorem claim_C9_witness :
    (⟨[], 1⟩ : Store).rows = [] ∧
    (getFactsRoute ⟨[], 1⟩ none = Response.typeError ∧
     main.get_facts none (DbOutcome.ok ([] : List (Int × String))) =
       Response.typeError ∧
     ∀ d, getFactsRoute ⟨[], 1⟩ none ≠ Response.error 404 d) :=
  ⟨rfl, claim_C9 ⟨[], 1⟩ rfl⟩

/-- C10: for every id present in the store whose stored text is the empty
string, `GET /fact/{id}` returns HTTP 404 rather than 200: the handler
treats the falsy empty text returned by the data layer as not found. -/
theorem claim_C10 (s : Store) (fact_id : Int)
    (h : s.rows.find? (fun r => r.1 == fact_id) = some (fact_id, "")) :
    getFactRoute s fact_id =
      Response.error 404 ("Fact with id " ++ toString fact_id ++ " not found.") ∧
    ∀ b, getFactRoute s fact_id ≠ Response.ok200 b := by
  have h1 : getFactRoute s fact_id =
      Response.error 404 ("Fact with id " ++ toString fact_id ++ " not found.") := by
    simp [getFactRoute, db.get_fact, h, main.get_fact, pyTruthyStr,
      (by decide : "".isEmpty = true)]
  refine ⟨h1, ?_⟩
  intro b hb
  rw [h1] at hb
  cases hb

theorem claim_C10_witness :
    (⟨[(1, "")], 2⟩ : Store).rows.find? (fun r => r.1 == (1 : Int)) =
      some (1, "") ∧
    (getFactRoute ⟨[(1, "")], 2⟩ 1 =
       Response.error 404 ("Fact with id " ++ toString (1 : Int) ++ " not found.") ∧
     ∀ b, getFactRoute ⟨[(1, "")], 2⟩ 1 ≠ Response.ok200 b) :=
  ⟨by decide, claim_C10 ⟨[(1, "")], 2⟩ 1 (by decide)⟩
